import Mathlib

/-!
Shallow embedding of the flight-planning MCP server
(`src/weather.py`, `src/atis.py`, `src/main.py`).

JSON bodies decoded by `response.json()` are modelled by the inductive
type `Json`, where `Json.obj` stands for an already-parsed Python dict
(insertion-ordered association list, keys unique as produced by
`json.loads`).  HTTP exchanges are modelled by `Exchange`: either the
server answered with a status code and a body, or `requests` raised a
transport-level exception before any response existed.  Each client
method is embedded twice: a `..._request` definition computing the
outgoing `Request` (URL plus the query-parameter list built exactly as
the Python code builds its `params` dict, in insertion order), and a
result definition taking an oracle `env : Request → Exchange` that says
how the upstream answers each request.  Composite operations return the
result together with the ordered list of requests they issued.
-/

/-- A decoded JSON value (the possible results of `response.json()`).
Numbers are modelled as integers; none of the verified behaviour
distinguishes floats. -/
inductive Json where
  | null
  | bool (b : Bool)
  | num (n : Int)
  | str (s : String)
  | arr (elems : List Json)
  | obj (fields : List (String × Json))

/-- Python's `str()` applied to a decoded JSON scalar.  The `arr`/`obj`
cases are unreachable at every call site (the code only stringifies
values that are neither `list` nor `dict`), so their value is
irrelevant. -/
def pyStr : Json → String
  | .null => "None"
  | .bool true => "True"
  | .bool false => "False"
  | .num n => toString n
  | .str s => s
  | .arr _ => ""
  | .obj _ => ""

/-- Whether a JSON value is a mapping (a Python `dict`). -/
def Json.isObj : Json → Bool
  | .obj _ => true
  | _ => false

/-- Whether a JSON value is a scalar (neither `list` nor `dict`):
the values hitting the final `else` branch of the normalizers. -/
def Json.isScalar : Json → Bool
  | .arr _ => false
  | .obj _ => false
  | _ => true

/-- Key lookup in a parsed JSON object: Python's `d[k]` / `k in d`. -/
def lookupJ (k : String) : List (String × Json) → Option Json
  | [] => none
  | (k2, v) :: fs => if k2 = k then some v else lookupJ k fs

/-- Replace the value stored at key `k` (keys are unique in a parsed
Python dict, so this touches one entry). -/
def setKey (k : String) (v : Json) : List (String × Json) → List (String × Json)
  | [] => []
  | (k2, w) :: fs => if k2 = k then (k, v) :: setKey k v fs else (k2, w) :: setKey k v fs

/-- Python dict assignment `d[k] = v`: replace in place when the key is
present, append otherwise. -/
def dictSet (fs : List (String × Json)) (k : String) (v : Json) : List (String × Json) :=
  if (lookupJ k fs).isSome then setKey k v fs else fs ++ [(k, v)]

/-- Python's `str.upper()` (character-wise upper-casing). -/
def pyUpper (s : String) : String := String.mk (s.data.map Char.toUpper)

/-- Python's `str.strip()`: drop whitespace from both ends. -/
def pyStrip (s : String) : String :=
  String.mk (((s.data.dropWhile Char.isWhitespace).reverse.dropWhile Char.isWhitespace).reverse)

/-- The identifier normalization `x.upper().strip()` used by the code. -/
def pyNormalize (s : String) : String := pyStrip (pyUpper s)

/-- Python's `str(b).lower()` for a bool. -/
def pyBoolStr (b : Bool) : String := if b then "true" else "false"

/-- An outgoing HTTP GET request: full URL and query parameters in the
order the Python code inserts them into its `params` dict. -/
structure Request where
  url : String
  params : List (String × String)
deriving DecidableEq

/-- Key lookup in a query-parameter list. -/
def lookupP (k : String) : List (String × String) → Option String
  | [] => none
  | (k2, v) :: ps => if k2 = k then some v else lookupP k ps

/-- The body of a completed HTTP response: either it decodes as JSON or
`response.json()` raises `JSONDecodeError` and only the text is
available. -/
inductive Body where
  | json (j : Json)
  | text (t : String)

/-- The outcome of `session.get`: either a response arrived (any status
code), or `requests` raised a transport-level `RequestException`
(connection error, timeout, ...) carrying no response, so
`getattr(e.response, 'status_code', None)` is `None`. -/
inductive Exchange where
  | response (status : Nat) (body : Body)
  | transportError (msg : String)

/-- Modelled from the `requests` library: `response.raise_for_status()`
raises exactly for status codes in [400, 600). -/
def isErrorStatus (status : Nat) : Bool := 400 ≤ status && status < 600

/-- Modelled from the `requests` library: `str(e)` for the `HTTPError`
raised by `raise_for_status()`.  The exact text (which also embeds the
server's reason phrase) lives outside this repository; what matters
here is that it is the exception's message, not the response body. -/
def httpErrorStr (status : Nat) (url : String) : String :=
  toString status ++ " Error for url: " ++ url

/-- Embedding of `WeatherRetriever._make_request` (src/weather.py lines 26-60),
given the URL and the outcome of the single `session.get`. -/
def weather_make_request (url : String) (ex : Exchange) : Json :=
  match ex with
  | .transportError msg => .obj [("error", .str msg), ("status_code", .null)]
  | .response status body =>
      if isErrorStatus status then
        .obj [("error", .str (httpErrorStr status url)), ("status_code", .num status)]
      else
        match body with
        | .text t => .obj [("raw_data", .str t)]
        | .json (.arr xs) => .obj [("data", .arr xs), ("count", .num xs.length)]
        | .json (.obj fs) => .obj fs
        | .json v => .obj [("data", v), ("raw_value", .str (pyStr v))]

/-- Embedding of `ATISRetriever._make_request` (src/atis.py lines 26-64): identical
to the weather variant except that a decoded dict containing a
top-level `"error"` key short-circuits to the error shape. -/
def atis_make_request (url : String) (ex : Exchange) : Json :=
  match ex with
  | .transportError msg => .obj [("error", .str msg), ("status_code", .null)]
  | .response status body =>
      if isErrorStatus status then
        .obj [("error", .str (httpErrorStr status url)), ("status_code", .num status)]
      else
        match body with
        | .text t => .obj [("raw_data", .str t)]
        | .json (.obj fs) =>
            match lookupJ "error" fs with
            | some e => .obj [("error", e), ("status_code", .num status)]
            | none => .obj fs
        | .json (.arr xs) => .obj [("data", .arr xs), ("count", .num xs.length)]
        | .json v => .obj [("data", v), ("raw_value", .str (pyStr v))]

/-- Param helper for `if x: params[k] = x` for an `Optional[str]` input
(absent or empty means omitted). -/
def pOptStr (k : String) : Option String → List (String × String)
  | none => []
  | some s => if s = "" then [] else [(k, s)]

/-- Param helper for `if x: params[k] = x` for a plain `str` input. -/
def pReqStr (k : String) (s : String) : List (String × String) :=
  if s = "" then [] else [(k, s)]

/-- Param helper for `if x: params[k] = x` for an `Optional[int]` input: numeric zero is
falsy in Python, so it is omitted just like `None`. -/
def pOptInt (k : String) : Option Int → List (String × String)
  | none => []
  | some n => if n = 0 then [] else [(k, toString n)]

/-- Param helper for `if x is not None: params[k] = str(x).lower()` for an
`Optional[bool]` input: `False` is still sent, as `"false"`. -/
def pOptBool (k : String) : Option Bool → List (String × String)
  | none => []
  | some b => [(k, pyBoolStr b)]

/-- Default base URL of `WeatherRetriever`. -/
def weatherBase : String := "https://aviationweather.gov/api"

/-- Default base URL of `ATISRetriever`. -/
def atisBase : String := "https://datis.clowd.io/api"

/-- The request `WeatherRetriever.get_metar` issues. -/
def get_metar_request (ids : Option String) (format : String) (taf : Option Bool)
    (hours : Option Int) (bbox : Option String) (date : Option String) : Request :=
  ⟨weatherBase ++ "/data/metar",
    pOptStr "ids" ids ++ pReqStr "format" format ++ pOptBool "taf" taf ++
    pOptInt "hours" hours ++ pOptStr "bbox" bbox ++ pOptStr "date" date⟩

/-- Embedding of `WeatherRetriever.get_metar` (src/weather.py lines 62-97). -/
def get_metar (env : Request → Exchange) (ids : Option String) (format : String)
    (taf : Option Bool) (hours : Option Int) (bbox : Option String)
    (date : Option String) : Json :=
  let req := get_metar_request ids format taf hours bbox date
  weather_make_request req.url (env req)

/-- The request `WeatherRetriever.get_taf` issues. -/
def get_taf_request (ids : Option String) (format : String) (metar : Option Bool)
    (bbox : Option String) (time : Option String) (date : Option String) : Request :=
  ⟨weatherBase ++ "/data/taf",
    pOptStr "ids" ids ++ pReqStr "format" format ++ pOptBool "metar" metar ++
    pOptStr "bbox" bbox ++ pOptStr "time" time ++ pOptStr "date" date⟩

/-- Embedding of `WeatherRetriever.get_taf` (src/weather.py lines 99-134). -/
def get_taf (env : Request → Exchange) (ids : Option String) (format : String)
    (metar : Option Bool) (bbox : Option String) (time : Option String)
    (date : Option String) : Json :=
  let req := get_taf_request ids format metar bbox time date
  weather_make_request req.url (env req)

/-- The request `WeatherRetriever.get_pirep` issues. -/
def get_pirep_request (id : Option String) (format : String) (raw : Option Bool)
    (age : Option Int) (distance : Option Int) (level : Option Int)
    (inten : Option String) (date : Option String) : Request :=
  ⟨weatherBase ++ "/data/pirep",
    pOptStr "id" id ++ pReqStr "format" format ++ pOptBool "raw" raw ++
    pOptInt "age" age ++ pOptInt "distance" distance ++ pOptInt "level" level ++
    pOptStr "inten" inten ++ pOptStr "date" date⟩

/-- Embedding of `WeatherRetriever.get_pirep` (src/weather.py lines 136-179). -/
def get_pirep (env : Request → Exchange) (id : Option String) (format : String)
    (raw : Option Bool) (age : Option Int) (distance : Option Int)
    (level : Option Int) (inten : Option String) (date : Option String) : Json :=
  let req := get_pirep_request id format raw age distance level inten date
  weather_make_request req.url (env req)

/-- The request `WeatherRetriever.get_airsigmet` issues. -/
def get_airsigmet_request (format : String) (hazard : Option String)
    (level : Option Int) (date : Option String) : Request :=
  ⟨weatherBase ++ "/data/airsigmet",
    pReqStr "format" format ++ pOptStr "hazard" hazard ++
    pOptInt "level" level ++ pOptStr "date" date⟩

/-- Embedding of `WeatherRetriever.get_airsigmet` (src/weather.py lines 181-208). -/
def get_airsigmet (env : Request → Exchange) (format : String)
    (hazard : Option String) (level : Option Int) (date : Option String) : Json :=
  let req := get_airsigmet_request format hazard level date
  weather_make_request req.url (env req)

/-- The request `WeatherRetriever.get_stationinfo` issues
(`format` is inserted unconditionally). -/
def get_stationinfo_request (ids : Option String) (bbox : Option String)
    (format : String) : Request :=
  ⟨weatherBase ++ "/data/stationinfo",
    [("format", format)] ++ pOptStr "ids" ids ++ pOptStr "bbox" bbox⟩

/-- Embedding of `WeatherRetriever.get_stationinfo` (src/weather.py lines 359-380). -/
def get_stationinfo (env : Request → Exchange) (ids : Option String)
    (bbox : Option String) (format : String) : Json :=
  let req := get_stationinfo_request ids bbox format
  weather_make_request req.url (env req)

/-- The request `WeatherRetriever.get_airport` issues
(`format` is inserted unconditionally). -/
def get_airport_request (ids : Option String) (bbox : Option String)
    (format : String) : Request :=
  ⟨weatherBase ++ "/data/airport",
    [("format", format)] ++ pOptStr "ids" ids ++ pOptStr "bbox" bbox⟩

/-- Embedding of `WeatherRetriever.get_airport` (src/weather.py lines 382-403). -/
def get_airport (env : Request → Exchange) (ids : Option String)
    (bbox : Option String) (format : String) : Json :=
  let req := get_airport_request ids bbox format
  weather_make_request req.url (env req)

/-- Embedding of `WeatherRetriever.get_weather_summary` (src/weather.py lines
489-532).  `now` stands for `datetime.now().isoformat()`.  Returns the
result together with the ordered list of requests issued. -/
def get_weather_summary (env : Request → Exchange) (now : String)
    (station_ids : List String) (include_taf : Bool) (hours_back : Int) :
    Json × List Request :=
  let ids_str := String.intercalate "," station_ids
  let metarReq := get_metar_request (some ids_str) "json" (some include_taf) (some hours_back) none none
  let metar_data := weather_make_request metarReq.url (env metarReq)
  let tafReq := get_taf_request (some ids_str) "json" (some false) none none none
  let taf_data := if include_taf then weather_make_request tafReq.url (env tafReq) else Json.null
  let stationReq := get_stationinfo_request (some ids_str) none "json"
  let station_info := weather_make_request stationReq.url (env stationReq)
  (Json.obj [("metar", metar_data), ("taf", taf_data), ("station_info", station_info),
             ("timestamp", .str now), ("stations_requested", .arr (station_ids.map Json.str))],
   [metarReq] ++ (if include_taf then [tafReq] else []) ++ [stationReq])

/-- Embedding of `WeatherRetriever.get_area_weather` (src/weather.py lines 534-580).
Returns the result together with the ordered list of requests issued. -/
def get_area_weather (env : Request → Exchange) (now : String) (bbox : String)
    (include_taf : Bool) (include_sigmet : Bool) : Json × List Request :=
  let metarReq := get_metar_request none "json" (some include_taf) none (some bbox) none
  let metar_data := weather_make_request metarReq.url (env metarReq)
  let tafReq := get_taf_request none "json" (some false) (some bbox) none none
  let taf_data := if include_taf then weather_make_request tafReq.url (env tafReq) else Json.null
  let sigmetReq := get_airsigmet_request "json" none none none
  let sigmet_data := if include_sigmet then weather_make_request sigmetReq.url (env sigmetReq) else Json.null
  let stationReq := get_stationinfo_request none (some bbox) "json"
  let station_info := weather_make_request stationReq.url (env stationReq)
  (Json.obj [("metar", metar_data), ("taf", taf_data), ("sigmet", sigmet_data),
             ("station_info", station_info), ("bbox", .str bbox), ("timestamp", .str now)],
   [metarReq] ++ (if include_taf then [tafReq] else []) ++
     (if include_sigmet then [sigmetReq] else []) ++ [stationReq])

/-- The request `ATISRetriever.get_airport_atis` issues: the airport id
is upper-cased and stripped before being placed into the URL; no query
parameters. -/
def get_airport_atis_request (airport_id : String) : Request :=
  ⟨atisBase ++ "/" ++ pyNormalize airport_id, []⟩

/-- Embedding of `ATISRetriever.get_airport_atis` (src/atis.py lines 84-97). -/
def get_airport_atis (env : Request → Exchange) (airport_id : String) : Json :=
  let req := get_airport_atis_request airport_id
  atis_make_request req.url (env req)

/-- The metadata block attached by `get_airport_atis_with_info`;
`now` stands for `datetime.now().isoformat()`. -/
def atisMetadata (airport_id : String) (now : String) : Json :=
  .obj [("airport_id", .str airport_id), ("timestamp", .str now),
        ("source", .str "FAA Digital ATIS API")]

/-- Embedding of `ATISRetriever.get_airport_atis_with_info` (src/atis.py lines
99-122): on success (no `"error"` key) attach the metadata block, on
error return the result unchanged.  The non-dict fallthrough is
unreachable because `_make_request` always returns a dict. -/
def get_airport_atis_with_info (env : Request → Exchange) (now : String)
    (airport_id : String) : Json :=
  match get_airport_atis env (pyNormalize airport_id) with
  | .obj fs =>
      if (lookupJ "error" fs).isSome then .obj fs
      else .obj (dictSet fs "metadata" (atisMetadata (pyNormalize airport_id) now))
  | other => other

/-- Python's `j[k]` / `k in j` on a value known to be a dict. -/
def Json.lookup (j : Json) (k : String) : Option Json :=
  match j with
  | .obj fs => lookupJ k fs
  | _ => none

/-- Embedding of `ensure_dict_response` (src/main.py lines 10-25). -/
def ensure_dict_response : Json → Json
  | .arr xs => .obj [("data", .arr xs), ("count", .num xs.length)]
  | .obj fs => .obj fs
  | v => .obj [("data", v), ("raw_value", .str (pyStr v))]

/-- The request the METAR tool issues: station id normalized at the
tool layer, `taf` hard-wired to `False`. -/
def get_metar_data_request (station_id : String) (format : String)
    (hours_back : Option Int) (date : Option String) : Request :=
  get_metar_request (some (pyNormalize station_id)) format (some false) hours_back none date

/-- Tool `get_metar_data` (src/main.py lines 41-68). -/
def get_metar_data (env : Request → Exchange) (station_id : String)
    (format : String) (hours_back : Option Int) (date : Option String) : Json :=
  ensure_dict_response
    (get_metar env (some (pyNormalize station_id)) format (some false) hours_back none date)

/-- The request the TAF tool issues: station id normalized at the tool
layer, `metar` hard-wired to `False`. -/
def get_taf_data_request (station_id : String) (format : String)
    (time : Option String) (date : Option String) : Request :=
  get_taf_request (some (pyNormalize station_id)) format (some false) none time date

/-- Tool `get_taf_data` (src/main.py lines 71-98). -/
def get_taf_data (env : Request → Exchange) (station_id : String)
    (format : String) (time : Option String) (date : Option String) : Json :=
  ensure_dict_response
    (get_taf env (some (pyNormalize station_id)) format (some false) none time date)

/-- The request the PIREP tool issues: `station_id` is forwarded to the
client as `id` without any normalization. -/
def get_pirep_data_request (station_id : Option String) (format : String)
    (age : Option Int) (distance : Option Int) (level : Option Int)
    (intensity : Option String) (date : Option String) : Request :=
  get_pirep_request station_id format none age distance level intensity date

/-- Tool `get_pirep_data` (src/main.py lines 101-133). -/
def get_pirep_data (env : Request → Exchange) (station_id : Option String)
    (format : String) (age : Option Int) (distance : Option Int)
    (level : Option Int) (intensity : Option String) (date : Option String) : Json :=
  ensure_dict_response (get_pirep env station_id format none age distance level intensity date)

/-- The request the airport-information tool issues. -/
def get_airport_information_request (airport_id : String) (format : String) : Request :=
  get_airport_request (some (pyNormalize airport_id)) none format

/-- Tool `get_airport_information` (src/main.py lines 136-155). -/
def get_airport_information (env : Request → Exchange) (airport_id : String)
    (format : String) : Json :=
  ensure_dict_response (get_airport env (some (pyNormalize airport_id)) none format)

/-- Tool `get_atis_data` (src/main.py lines 158-172): normalizes the
airport id and delegates to `get_airport_atis_with_info`. -/
def get_atis_data (env : Request → Exchange) (now : String) (airport_id : String) : Json :=
  ensure_dict_response (get_airport_atis_with_info env now (pyNormalize airport_id))

theorem lookupP_append (k : String) (l1 l2 : List (String × String)) :
    lookupP k (l1 ++ l2) = ((lookupP k l1).orElse fun _ => lookupP k l2) := by
  induction l1 with
  | nil => rfl
  | cons p ps ih =>
    obtain ⟨a, b⟩ := p
    by_cases h : a = k <;> simp [lookupP, h, ih]

theorem lookupJ_append (k : String) (l1 l2 : List (String × Json)) :
    lookupJ k (l1 ++ l2) = ((lookupJ k l1).orElse fun _ => lookupJ k l2) := by
  induction l1 with
  | nil => rfl
  | cons p ps ih =>
    obtain ⟨a, b⟩ := p
    by_cases h : a = k <;> simp [lookupJ, h, ih]

theorem lookupP_pOptStr_ne (k k2 : String) (v : Option String) (h : k2 ≠ k) :
    lookupP k (pOptStr k2 v) = none := by
  cases v with
  | none => rfl
  | some s => by_cases hs : s = "" <;> simp [pOptStr, hs, lookupP, h]

theorem lookupP_pReqStr_ne (k k2 : String) (s : String) (h : k2 ≠ k) :
    lookupP k (pReqStr k2 s) = none := by
  by_cases hs : s = "" <;> simp [pReqStr, hs, lookupP, h]

theorem lookupP_pOptInt_ne (k k2 : String) (v : Option Int) (h : k2 ≠ k) :
    lookupP k (pOptInt k2 v) = none := by
  cases v with
  | none => rfl
  | some n => by_cases hn : n = 0 <;> simp [pOptInt, hn, lookupP, h]

theorem lookupP_pOptBool_ne (k k2 : String) (v : Option Bool) (h : k2 ≠ k) :
    lookupP k (pOptBool k2 v) = none := by
  cases v <;> simp [pOptBool, lookupP, h]

theorem lookupP_pOptStr_self (k : String) (v : Option String) :
    lookupP k (pOptStr k v)
      = match v with
        | none => none
        | some s => if s = "" then none else some s := by
  cases v with
  | none => rfl
  | some s => by_cases hs : s = "" <;> simp [pOptStr, hs, lookupP]

theorem lookupP_pOptInt_self (k : String) (v : Option Int) :
    lookupP k (pOptInt k v)
      = match v with
        | none => none
        | some n => if n = 0 then none else some (toString n) := by
  cases v with
  | none => rfl
  | some n => by_cases hn : n = 0 <;> simp [pOptInt, hn, lookupP]

theorem lookupP_pOptBool_self (k : String) (v : Option Bool) :
    lookupP k (pOptBool k v) = v.map pyBoolStr := by
  cases v <;> simp [pOptBool, lookupP]

theorem weather_make_request_isObj (url : String) (ex : Exchange) :
    (weather_make_request url ex).isObj = true := by
  cases ex with
  | transportError msg => rfl
  | response status body =>
    by_cases hs : isErrorStatus status = true
    · simp [weather_make_request, hs, Json.isObj]
    · cases body with
      | text t => simp [weather_make_request, hs, Json.isObj]
      | json j => cases j <;> simp [weather_make_request, hs, Json.isObj]

theorem atis_make_request_isObj (url : String) (ex : Exchange) :
    (atis_make_request url ex).isObj = true := by
  cases ex with
  | transportError msg => rfl
  | response status body =>
    by_cases hs : isErrorStatus status = true
    · simp [atis_make_request, hs, Json.isObj]
    · cases body with
      | text t => simp [atis_make_request, hs, Json.isObj]
      | json j =>
        cases j with
        | null => simp [atis_make_request, hs, Json.isObj]
        | bool b => simp [atis_make_request, hs, Json.isObj]
        | num n => simp [atis_make_request, hs, Json.isObj]
        | str s => simp [atis_make_request, hs, Json.isObj]
        | arr xs => simp [atis_make_request, hs, Json.isObj]
        | obj fs =>
          cases h : lookupJ "error" fs <;> simp [atis_make_request, hs, h, Json.isObj]

theorem ensure_dict_response_isObj (j : Json) :
    (ensure_dict_response j).isObj = true := by
  cases j <;> rfl

theorem lookupJ_setKey_self (k : String) (v : Json) (fs : List (String × Json))
    (h : (lookupJ k fs).isSome = true) : lookupJ k (setKey k v fs) = some v := by
  induction fs with
  | nil => simp [lookupJ] at h
  | cons p ps ih =>
    obtain ⟨a, b⟩ := p
    by_cases ha : a = k
    · subst ha
      simp [setKey, lookupJ]
    · simp [setKey, lookupJ, ha] at h ⊢
      exact ih h

theorem lookupJ_dictSet (fs : List (String × Json)) (k : String) (v : Json) :
    lookupJ k (dictSet fs k v) = some v := by
  unfold dictSet
  by_cases h : (lookupJ k fs).isSome = true
  · simp only [h, if_true]
    exact lookupJ_setKey_self k v fs h
  · rw [if_neg h, lookupJ_append]
    simp only [Bool.not_eq_true, Option.not_isSome, Option.isNone_iff_eq_none] at h
    simp [h, lookupJ, Option.orElse]

theorem atis_error_result_shape (url : String) (ex : Exchange)
    (fs : List (String × Json)) (hfs : atis_make_request url ex = .obj fs)
    (herr : (lookupJ "error" fs).isSome = true) :
    ∃ e c, fs = [("error", e), ("status_code", c)] := by
  cases ex with
  | transportError msg =>
    simp only [atis_make_request, Json.obj.injEq] at hfs
    exact ⟨.str msg, .null, hfs.symm⟩
  | response status body =>
    by_cases hs : isErrorStatus status = true
    · simp [atis_make_request, hs] at hfs
      exact ⟨.str (httpErrorStr status url), .num status, hfs.symm⟩
    · cases body with
      | text t =>
        simp [atis_make_request, hs] at hfs
        subst hfs
        simp [lookupJ] at herr
      | json j =>
        cases j with
        | null =>
          simp [atis_make_request, hs] at hfs
          subst hfs
          simp [lookupJ] at herr
        | bool b =>
          simp [atis_make_request, hs] at hfs
          subst hfs
          simp [lookupJ] at herr
        | num n =>
          simp [atis_make_request, hs] at hfs
          subst hfs
          simp [lookupJ] at herr
        | str s =>
          simp [atis_make_request, hs] at hfs
          subst hfs
          simp [lookupJ] at herr
        | arr xs =>
          simp [atis_make_request, hs] at hfs
          subst hfs
          simp [lookupJ] at herr
        | obj gs =>
          cases hg : lookupJ "error" gs with
          | some e =>
            simp [atis_make_request, hs, hg] at hfs
            exact ⟨e, .num status, hfs.symm⟩
          | none =>
            simp [atis_make_request, hs, hg] at hfs
            subst hfs
            rw [hg] at herr
            simp at herr

theorem get_airport_atis_isObj (env : Request → Exchange) (aid : String) :
    (get_airport_atis env aid).isObj = true :=
  atis_make_request_isObj _ _

theorem get_airport_atis_with_info_isObj (env : Request → Exchange)
    (now aid : String) : (get_airport_atis_with_info env now aid).isObj = true := by
  unfold get_airport_atis_with_info
  cases hres : get_airport_atis env (pyNormalize aid) with
  | obj fs =>
    by_cases h : (lookupJ "error" fs).isSome = true <;> simp [h, Json.isObj]
  | null =>
    have := get_airport_atis_isObj env (pyNormalize aid)
    rw [hres] at this
    simp [Json.isObj] at this
  | bool b =>
    have := get_airport_atis_isObj env (pyNormalize aid)
    rw [hres] at this
    simp [Json.isObj] at this
  | num n =>
    have := get_airport_atis_isObj env (pyNormalize aid)
    rw [hres] at this
    simp [Json.isObj] at this
  | str s =>
    have := get_airport_atis_isObj env (pyNormalize aid)
    rw [hres] at this
    simp [Json.isObj] at this
  | arr xs =>
    have := get_airport_atis_isObj env (pyNormalize aid)
    rw [hres] at this
    simp [Json.isObj] at this

/-- C2: for every possible upstream outcome (JSON object, JSON array,
JSON scalar, non-JSON text, transport failure, or HTTP error status),
the two response normalizers, every client request method, every tool,
and the tool surface's defensive reshape `ensure_dict_response` return
a mapping — never a bare list, bare scalar, or null. -/
theorem responses_always_mapping :
    (∀ url ex, (weather_make_request url ex).isObj = true) ∧
    (∀ url ex, (atis_make_request url ex).isObj = true) ∧
    (∀ j, (ensure_dict_response j).isObj = true) ∧
    (∀ env ids format taf hours bbox date,
       (get_metar env ids format taf hours bbox date).isObj = true) ∧
    (∀ env ids format metar bbox time date,
       (get_taf env ids format metar bbox time date).isObj = true) ∧
    (∀ env id format raw age distance level inten date,
       (get_pirep env id format raw age distance level inten date).isObj = true) ∧
    (∀ env format hazard level date,
       (get_airsigmet env format hazard level date).isObj = true) ∧
    (∀ env ids bbox format, (get_stationinfo env ids bbox format).isObj = true) ∧
    (∀ env ids bbox format, (get_airport env ids bbox format).isObj = true) ∧
    (∀ env aid, (get_airport_atis env aid).isObj = true) ∧
    (∀ env now aid, (get_airport_atis_with_info env now aid).isObj = true) ∧
    (∀ env now sids it hb, (get_weather_summary env now sids it hb).1.isObj = true) ∧
    (∀ env now bb it isg, (get_area_weather env now bb it isg).1.isObj = true) ∧
    (∀ env s format hb d, (get_metar_data env s format hb d).isObj = true) ∧
    (∀ env s format t d, (get_taf_data env s format t d).isObj = true) ∧
    (∀ env s format age dist lvl ints d,
       (get_pirep_data env s format age dist lvl ints d).isObj = true) ∧
    (∀ env aid format, (get_airport_information env aid format).isObj = true) ∧
    (∀ env now aid, (get_atis_data env now aid).isObj = true) := by
  refine ⟨weather_make_request_isObj, atis_make_request_isObj, ensure_dict_response_isObj,
    ?_, ?_, ?_, ?_, ?_, ?_, get_airport_atis_isObj, get_airport_atis_with_info_isObj,
    ?_, ?_, ?_, ?_, ?_, ?_, ?_⟩
  · intro env ids format taf hours bbox date
    exact weather_make_request_isObj _ _
  · intro env ids format metar bbox time date
    exact weather_make_request_isObj _ _
  · intro env id format raw age distance level inten date
    exact weather_make_request_isObj _ _
  · intro env format hazard level date
    exact weather_make_request_isObj _ _
  · intro env ids bbox format
    exact weather_make_request_isObj _ _
  · intro env ids bbox format
    exact weather_make_request_isObj _ _
  · intro env now sids it hb
    rfl
  · intro env now bb it isg
    rfl
  · intro env s format hb d
    exact ensure_dict_response_isObj _
  · intro env s format t d
    exact ensure_dict_response_isObj _
  · intro env s format age dist lvl ints d
    exact ensure_dict_response_isObj _
  · intro env aid format
    exact ensure_dict_response_isObj _
  · intro env now aid
    exact ensure_dict_response_isObj _

/-- C7: for every caller input, the METAR tool's outgoing request
carries `taf="false"` and the TAF tool's outgoing request carries
`metar="false"` (booleans serialized as lowercase strings). -/
theorem metar_taf_opposite_type_disabled (station_id format : String)
    (hours_back : Option Int) (time date : Option String) :
    lookupP "taf" (get_metar_data_request station_id format hours_back date).params
      = some "false" ∧
    lookupP "metar" (get_taf_data_request station_id format time date).params
      = some "false" := by
  constructor
  · simp [get_metar_data_request, get_metar_request, lookupP_append,
          lookupP_pOptStr_ne, lookupP_pReqStr_ne, lookupP_pOptBool_self,
          Option.orElse, pyBoolStr]
  · simp [get_taf_data_request, get_taf_request, lookupP_append,
          lookupP_pOptStr_ne, lookupP_pReqStr_ne, lookupP_pOptBool_self,
          Option.orElse, pyBoolStr]

/-- C6 counterexample: with both optional feeds enabled (the default),
the area summary issues 4 sequential GET requests — METAR, TAF, SIGMET
and station-info — not at most 3. -/
theorem area_summary_issues_four_requests :
    (get_area_weather (fun _ => .transportError "down") "T" "30,-100,40,-90" true true).2.length = 4 ∧
    ¬ (get_area_weather (fun _ => .transportError "down") "T" "30,-100,40,-90" true true).2.length ≤ 3 := by
  exact ⟨rfl, by decide⟩

/-- C6 amended: the weather summary issues 2 or 3 requests (at most 3),
the area summary 2 + (1 if TAF) + (1 if SIGMET) requests (at most 4,
and exactly 4 when both optional feeds are enabled); a simple lookup
consults the upstream through exactly its one request — shown for
`get_metar`, whose result depends on the environment only at
`get_metar_request ...`. -/
theorem composite_request_counts (env : Request → Exchange) (now : String)
    (sids : List String) (it : Bool) (hb : Int)
    (bb : String) (it2 isg : Bool) :
    (get_weather_summary env now sids it hb).2.length = (if it then 3 else 2) ∧
    (get_weather_summary env now sids it hb).2.length ≤ 3 ∧
    (get_area_weather env now bb it2 isg).2.length
      = 2 + (if it2 then 1 else 0) + (if isg then 1 else 0) ∧
    (get_area_weather env now bb it2 isg).2.length ≤ 4 ∧
    (∀ env2 ids format taf hours bbox date,
       env (get_metar_request ids format taf hours bbox date)
         = env2 (get_metar_request ids format taf hours bbox date) →
       get_metar env ids format taf hours bbox date
         = get_metar env2 ids format taf hours bbox date) := by
  refine ⟨?_, ?_, ?_, ?_, ?_⟩
  · cases it <;> rfl
  · have h1 : (get_weather_summary env now sids it hb).2.length = (if it then 3 else 2) := by
      cases it <;> rfl
    rw [h1]
    cases it <;> decide
  · cases it2 <;> cases isg <;> rfl
  · have h2 : (get_area_weather env now bb it2 isg).2.length
        = 2 + (if it2 then 1 else 0) + (if isg then 1 else 0) := by
      cases it2 <;> cases isg <;> rfl
    rw [h2]
    cases it2 <;> cases isg <;> decide
  · intro env2 ids format taf hours bbox date h
    simp only [get_metar]
    rw [h]

/-- Witness for the amended C6 theorem at concrete inputs: a summary
with TAF enabled issues 3 requests, and two environments that agree on
the METAR request give the same `get_metar` result. -/
theorem composite_request_counts_witness :
    (get_weather_summary (fun _ => .transportError "down") "T" ["KJFK"] true 2).2.length = 3 ∧
    get_metar (fun r => if r.url = weatherBase ++ "/data/taf"
                        then .transportError "x" else .response 200 (.json (.obj [])))
        (some "KJFK") "json" none none none none
      = get_metar (fun _ => .response 200 (.json (.obj [])))
        (some "KJFK") "json" none none none none := by
  constructor
  · exact (composite_request_counts (fun _ => .transportError "down") "T" ["KJFK"] true 2
      "b" true true).1
  · exact (composite_request_counts
      (fun r => if r.url = weatherBase ++ "/data/taf"
                then .transportError "x" else .response 200 (.json (.obj []))) "T" ["KJFK"] true 2
      "b" true true).2.2.2.2 (fun _ => .response 200 (.json (.obj [])))
      (some "KJFK") "json" none none none none rfl

/-- C5 counterexample: the PIREP tool forwards `station_id=" kjfk "`
into the outgoing `id` query parameter as-is, without upper-casing or
whitespace-stripping. -/
theorem pirep_identifier_not_normalized :
    lookupP "id" (get_pirep_data_request (some " kjfk ") "raw" none none none none none).params
      = some " kjfk " ∧
    pyNormalize " kjfk " = "KJFK" ∧ (" kjfk " : String) ≠ "KJFK" := by
  exact ⟨rfl, by decide, by decide⟩

/-- C5 amended: single-identifier inputs are upper-cased and stripped
at the tool layer for the METAR, TAF and airport-information tools and
on the ATIS path, but the PIREP tool forwards its station identifier
unchanged, and the weather client methods never normalize their `ids`
input themselves. -/
theorem identifier_normalization (s format : String) (hb : Option Int)
    (t d : Option String) :
    lookupP "ids" (get_metar_data_request s format hb d).params
      = (if pyNormalize s = "" then none else some (pyNormalize s)) ∧
    lookupP "ids" (get_taf_data_request s format t d).params
      = (if pyNormalize s = "" then none else some (pyNormalize s)) ∧
    (∀ fmt2, lookupP "ids" (get_airport_information_request s fmt2).params
      = (if pyNormalize s = "" then none else some (pyNormalize s))) ∧
    (get_airport_atis_request s).url = atisBase ++ "/" ++ pyNormalize s ∧
    (∀ age dist lvl ints d2,
       lookupP "id" (get_pirep_data_request (some s) format age dist lvl ints d2).params
         = (if s = "" then none else some s)) ∧
    (∀ taf hours bbox d2,
       lookupP "ids" (get_metar_request (some s) format taf hours bbox d2).params
         = (if s = "" then none else some s)) := by
  refine ⟨?_, ?_, ?_, rfl, ?_, ?_⟩
  · by_cases hn : pyNormalize s = "" <;>
      simp [get_metar_data_request, get_metar_request, lookupP_append,
            lookupP_pOptStr_self, lookupP_pReqStr_ne, lookupP_pOptBool_ne,
            lookupP_pOptInt_ne, lookupP_pOptStr_ne, hn, Option.orElse]
  · by_cases hn : pyNormalize s = "" <;>
      simp [get_taf_data_request, get_taf_request, lookupP_append,
            lookupP_pOptStr_self, lookupP_pReqStr_ne, lookupP_pOptBool_ne,
            lookupP_pOptInt_ne, lookupP_pOptStr_ne, hn, Option.orElse]
  · intro fmt2
    by_cases hn : pyNormalize s = "" <;>
      simp [get_airport_information_request, get_airport_request, lookupP_append,
            lookupP_pOptStr_self, lookupP_pOptStr_ne, lookupP, hn, Option.orElse]
  · intro age dist lvl ints d2
    by_cases hs : s = "" <;>
      simp [get_pirep_data_request, get_pirep_request, lookupP_append,
            lookupP_pOptStr_self, lookupP_pReqStr_ne, lookupP_pOptBool_ne,
            lookupP_pOptInt_ne, lookupP_pOptStr_ne, hs, Option.orElse]
  · intro taf hours bbox d2
    by_cases hs : s = "" <;>
      simp [get_metar_request, lookupP_append,
            lookupP_pOptStr_self, lookupP_pReqStr_ne, lookupP_pOptBool_ne,
            lookupP_pOptInt_ne, lookupP_pOptStr_ne, hs, Option.orElse]

/-- C4 counterexample: an explicitly passed numeric zero is dropped by
the Python truthiness check, so `hours=0` to `get_metar` and `age=0`,
`level=0` to `get_pirep` produce requests without those keys. -/
theorem zero_valued_params_dropped :
    lookupP "hours" (get_metar_request (some "KJFK") "json" none (some 0) none none).params
      = none ∧
    lookupP "age" (get_pirep_request (some "KJFK") "raw" none (some 0) none (some 0) none none).params
      = none ∧
    lookupP "level" (get_pirep_request (some "KJFK") "raw" none (some 0) none (some 0) none none).params
      = none := by
  exact ⟨rfl, rfl, rfl⟩

/-- C4 amended: a query-parameter key is included exactly when its input
is truthy in the Python sense — optional strings when non-None and
non-empty, optional integers when non-None and nonzero (an explicitly
passed zero is dropped exactly like None), boolean flags whenever
non-None (so `False` is still sent). -/
theorem weather_params_truthiness (ids : Option String) (format : String)
    (taf : Option Bool) (hours : Option Int) (bbox date : Option String)
    (id : Option String) (raw : Option Bool) (age distance level : Option Int)
    (inten : Option String) :
    lookupP "hours" (get_metar_request ids format taf hours bbox date).params
      = (match hours with
         | none => none
         | some n => if n = 0 then none else some (toString n)) ∧
    lookupP "taf" (get_metar_request ids format taf hours bbox date).params
      = taf.map pyBoolStr ∧
    lookupP "ids" (get_metar_request ids format taf hours bbox date).params
      = (match ids with
         | none => none
         | some s => if s = "" then none else some s) ∧
    lookupP "age" (get_pirep_request id format raw age distance level inten date).params
      = (match age with
         | none => none
         | some n => if n = 0 then none else some (toString n)) ∧
    lookupP "distance" (get_pirep_request id format raw age distance level inten date).params
      = (match distance with
         | none => none
         | some n => if n = 0 then none else some (toString n)) ∧
    lookupP "level" (get_pirep_request id format raw age distance level inten date).params
      = (match level with
         | none => none
         | some n => if n = 0 then none else some (toString n)) := by
  refine ⟨?_, ?_, ?_, ?_, ?_, ?_⟩
  · cases hours with
    | none =>
      simp [get_metar_request, lookupP_append, lookupP_pOptStr_ne, lookupP_pReqStr_ne,
            lookupP_pOptBool_ne, lookupP_pOptInt_self, Option.orElse]
    | some n =>
      by_cases hn : n = 0 <;>
        simp [get_metar_request, lookupP_append, lookupP_pOptStr_ne, lookupP_pReqStr_ne,
              lookupP_pOptBool_ne, lookupP_pOptInt_self, hn, Option.orElse]
  · cases taf with
    | none =>
      simp [get_metar_request, lookupP_append, lookupP_pOptStr_ne, lookupP_pReqStr_ne,
            lookupP_pOptBool_self, lookupP_pOptInt_ne, Option.orElse]
    | some b =>
      simp [get_metar_request, lookupP_append, lookupP_pOptStr_ne, lookupP_pReqStr_ne,
            lookupP_pOptBool_self, lookupP_pOptInt_ne, Option.orElse]
  · cases ids with
    | none =>
      simp [get_metar_request, lookupP_append, lookupP_pOptStr_self, lookupP_pReqStr_ne,
            lookupP_pOptBool_ne, lookupP_pOptInt_ne, lookupP_pOptStr_ne, Option.orElse]
    | some s =>
      by_cases hs : s = "" <;>
        simp [get_metar_request, lookupP_append, lookupP_pOptStr_self, lookupP_pReqStr_ne,
              lookupP_pOptBool_ne, lookupP_pOptInt_ne, lookupP_pOptStr_ne, hs, Option.orElse]
  · cases age with
    | none =>
      simp [get_pirep_request, lookupP_append, lookupP_pOptStr_ne, lookupP_pReqStr_ne,
            lookupP_pOptBool_ne, lookupP_pOptInt_self, lookupP_pOptInt_ne, Option.orElse]
    | some n =>
      by_cases hn : n = 0 <;>
        simp [get_pirep_request, lookupP_append, lookupP_pOptStr_ne, lookupP_pReqStr_ne,
              lookupP_pOptBool_ne, lookupP_pOptInt_self, lookupP_pOptInt_ne, hn, Option.orElse]
  · cases distance with
    | none =>
      simp [get_pirep_request, lookupP_append, lookupP_pOptStr_ne, lookupP_pReqStr_ne,
            lookupP_pOptBool_ne, lookupP_pOptInt_self, lookupP_pOptInt_ne, Option.orElse]
    | some n =>
      by_cases hn : n = 0 <;>
        simp [get_pirep_request, lookupP_append, lookupP_pOptStr_ne, lookupP_pReqStr_ne,
              lookupP_pOptBool_ne, lookupP_pOptInt_self, lookupP_pOptInt_ne, hn, Option.orElse]
  · cases level with
    | none =>
      simp [get_pirep_request, lookupP_append, lookupP_pOptStr_ne, lookupP_pReqStr_ne,
            lookupP_pOptBool_ne, lookupP_pOptInt_self, lookupP_pOptInt_ne, Option.orElse]
    | some n =>
      by_cases hn : n = 0 <;>
        simp [get_pirep_request, lookupP_append, lookupP_pOptStr_ne, lookupP_pReqStr_ne,
              lookupP_pOptBool_ne, lookupP_pOptInt_self, lookupP_pOptInt_ne, hn, Option.orElse]

/-- C1 counterexample: on a 200 response whose decoded body is the JSON
object {"error": "x", "other": 1}, the ATIS normalizer does not return
the object unchanged — it short-circuits to the error shape. -/
theorem atis_object_with_error_not_passthrough :
    atis_make_request "u" (.response 200 (.json (.obj [("error", .str "x"), ("other", .num 1)])))
      = .obj [("error", .str "x"), ("status_code", .num 200)] ∧
    Json.obj [("error", .str "x"), ("status_code", .num 200)]
      ≠ Json.obj [("error", .str "x"), ("other", .num 1)] := by
  exact ⟨rfl, by simp⟩

/-- C1 amended: on a completed 2xx exchange the weather normalizer
classifies the decoded body into exactly the four canonical mappings
(array → data/count, object → unchanged, scalar → data/raw_value,
non-JSON → raw_data); the ATIS normalizer does the same except that a
decoded object with a top-level `error` key maps to
{error: value, status_code: status} instead of passing through. -/
theorem normalizer_classification (url : String) (status : Nat)
    (h2xx : 200 ≤ status ∧ status < 300) :
    (∀ xs, weather_make_request url (.response status (.json (.arr xs)))
        = .obj [("data", .arr xs), ("count", .num xs.length)]) ∧
    (∀ fs, weather_make_request url (.response status (.json (.obj fs))) = .obj fs) ∧
    (∀ v, v.isScalar = true →
       weather_make_request url (.response status (.json v))
         = .obj [("data", v), ("raw_value", .str (pyStr v))]) ∧
    (∀ t, weather_make_request url (.response status (.text t)) = .obj [("raw_data", .str t)]) ∧
    (∀ xs, atis_make_request url (.response status (.json (.arr xs)))
        = .obj [("data", .arr xs), ("count", .num xs.length)]) ∧
    (∀ fs, lookupJ "error" fs = none →
       atis_make_request url (.response status (.json (.obj fs))) = .obj fs) ∧
    (∀ fs e, lookupJ "error" fs = some e →
       atis_make_request url (.response status (.json (.obj fs)))
         = .obj [("error", e), ("status_code", .num status)]) ∧
    (∀ v, v.isScalar = true →
       atis_make_request url (.response status (.json v))
         = .obj [("data", v), ("raw_value", .str (pyStr v))]) ∧
    (∀ t, atis_make_request url (.response status (.text t)) = .obj [("raw_data", .str t)]) := by
  have hs : isErrorStatus status = false := by
    simp [isErrorStatus]
    omega
  refine ⟨?_, ?_, ?_, ?_, ?_, ?_, ?_, ?_, ?_⟩
  · intro xs
    simp [weather_make_request, hs]
  · intro fs
    simp [weather_make_request, hs]
  · intro v hv
    cases v with
    | arr xs => simp [Json.isScalar] at hv
    | obj fs => simp [Json.isScalar] at hv
    | null => simp [weather_make_request, hs]
    | bool b => simp [weather_make_request, hs]
    | num n => simp [weather_make_request, hs]
    | str s => simp [weather_make_request, hs]
  · intro t
    simp [weather_make_request, hs]
  · intro xs
    simp [atis_make_request, hs]
  · intro fs herr
    simp [atis_make_request, hs, herr]
  · intro fs e herr
    simp [atis_make_request, hs, herr]
  · intro v hv
    cases v with
    | arr xs => simp [Json.isScalar] at hv
    | obj fs => simp [Json.isScalar] at hv
    | null => simp [atis_make_request, hs]
    | bool b => simp [atis_make_request, hs]
    | num n => simp [atis_make_request, hs]
    | str s => simp [atis_make_request, hs]
  · intro t
    simp [atis_make_request, hs]

/-- Witness for the amended C1 theorem at status 200: an array body is
wrapped with its count, and an ATIS object body with an `error` key is
short-circuited to the error shape. -/
theorem normalizer_classification_witness :
    (200 ≤ 200 ∧ 200 < 300) ∧
    weather_make_request "u" (.response 200 (.json (.arr [.num 7])))
      = .obj [("data", .arr [.num 7]), ("count", .num 1)] ∧
    atis_make_request "u" (.response 200 (.json (.obj [("error", .str "boom")])))
      = .obj [("error", .str "boom"), ("status_code", .num 200)] :=
  ⟨by decide, (normalizer_classification "u" 200 (by decide)).1 [.num 7],
   (normalizer_classification "u" 200 (by decide)).2.2.2.2.2.2.1
     [("error", .str "boom")] (.str "boom") rfl⟩

/-- C10: a whitespace-only (or empty) station id still produces an
outbound METAR request, but with no `ids` parameter at all — the
stripped identifier is the empty string, which the falsy check drops —
and an empty `ids` argument to the weather client lookups is likewise
never sent. -/
theorem blank_station_id_queries_unfiltered (s : String)
    (h : pyNormalize s = "") (format : String) (hb : Option Int)
    (d : Option String) :
    lookupP "ids" (get_metar_data_request s format hb d).params = none ∧
    (get_metar_data_request s format hb d).url = weatherBase ++ "/data/metar" ∧
    (∀ fmt taf hours bbox date,
       lookupP "ids" (get_metar_request (some "") fmt taf hours bbox date).params = none) ∧
    (∀ fmt metar bbox time date,
       lookupP "ids" (get_taf_request (some "") fmt metar bbox time date).params = none) ∧
    (∀ bbox fmt, lookupP "ids" (get_stationinfo_request (some "") bbox fmt).params = none) ∧
    (∀ bbox fmt, lookupP "ids" (get_airport_request (some "") bbox fmt).params = none) := by
  refine ⟨?_, rfl, ?_, ?_, ?_, ?_⟩
  · simp [get_metar_data_request, get_metar_request, lookupP_append,
          lookupP_pOptStr_self, lookupP_pReqStr_ne, lookupP_pOptBool_ne,
          lookupP_pOptInt_ne, lookupP_pOptStr_ne, h, Option.orElse]
  · intro fmt taf hours bbox date
    simp [get_metar_request, lookupP_append, lookupP_pOptStr_self, lookupP_pReqStr_ne,
          lookupP_pOptBool_ne, lookupP_pOptInt_ne, lookupP_pOptStr_ne, Option.orElse]
  · intro fmt metar bbox time date
    simp [get_taf_request, lookupP_append, lookupP_pOptStr_self, lookupP_pReqStr_ne,
          lookupP_pOptBool_ne, lookupP_pOptInt_ne, lookupP_pOptStr_ne, Option.orElse]
  · intro bbox fmt
    simp [get_stationinfo_request, lookupP_append, lookupP_pOptStr_self,
          lookupP_pOptStr_ne, lookupP, Option.orElse]
  · intro bbox fmt
    simp [get_airport_request, lookupP_append, lookupP_pOptStr_self,
          lookupP_pOptStr_ne, lookupP, Option.orElse]

/-- Witness for C10 at the whitespace-only id "   ". -/
theorem blank_station_id_queries_unfiltered_witness :
    pyNormalize "   " = "" ∧
    lookupP "ids" (get_metar_data_request "   " "json" none none).params = none :=
  ⟨by decide, (blank_station_id_queries_unfiltered "   " (by decide) "json" none none).1⟩

/-- C3 counterexample: the ATIS tool called with airport_id "klax"
against an upstream answering HTTP 404 with body {"error": "not found"}
does NOT return {error: "not found", status_code: 404}:
`raise_for_status` raises before the body is decoded, so the `error`
value is the HTTPError's message, not the body's `error` value. -/
theorem atis_404_reports_exception_text :
    get_atis_data (fun _ => .response 404 (.json (.obj [("error", .str "not found")])))
        "2024-05-01T00:00:00" "klax"
      = .obj [("error", .str (httpErrorStr 404 (atisBase ++ "/KLAX"))),
              ("status_code", .num 404)] ∧
    httpErrorStr 404 (atisBase ++ "/KLAX") ≠ "not found" ∧
    get_atis_data (fun _ => .response 404 (.json (.obj [("error", .str "not found")])))
        "2024-05-01T00:00:00" "klax"
      ≠ .obj [("error", .str "not found"), ("status_code", .num 404)] := by
  have h1 : get_atis_data (fun _ => .response 404 (.json (.obj [("error", .str "not found")])))
      "2024-05-01T00:00:00" "klax"
      = .obj [("error", .str (httpErrorStr 404 (atisBase ++ "/KLAX"))),
              ("status_code", .num 404)] := rfl
  refine ⟨h1, by decide, ?_⟩
  rw [h1]
  intro hcontra
  have h2 := congrArg
    (fun j => match j with
      | Json.obj ((_, Json.str s) :: _) => s
      | _ => "") hcontra
  exact absurd h2 (by decide)

/-- C3 amended: on an HTTP error status (400-599) the ATIS tool's
result pairs the raised HTTPError's message — not the body's `error`
value — with the status code and has no `metadata` key; the body's
top-level `error` key is honoured only on non-error statuses, where it
is paired with that status code (again with no `metadata` key). -/
theorem atis_error_paths (now aid : String) (status : Nat) :
    (∀ body, 400 ≤ status → status < 600 →
       get_atis_data (fun _ => .response status body) now aid
         = .obj [("error",
                  .str (httpErrorStr status
                    (atisBase ++ "/" ++ pyNormalize (pyNormalize (pyNormalize aid))))),
                 ("status_code", .num status)] ∧
       Json.lookup (get_atis_data (fun _ => .response status body) now aid) "metadata"
         = none) ∧
    (∀ fs e, ¬ (400 ≤ status ∧ status < 600) → lookupJ "error" fs = some e →
       get_atis_data (fun _ => .response status (.json (.obj fs))) now aid
         = .obj [("error", e), ("status_code", .num status)] ∧
       Json.lookup (get_atis_data (fun _ => .response status (.json (.obj fs))) now aid)
           "metadata" = none) := by
  constructor
  · intro body h4 h6
    have hs : isErrorStatus status = true := by
      simp [isErrorStatus]
      omega
    have hres : get_airport_atis (fun _ => .response status body) (pyNormalize (pyNormalize aid))
        = .obj [("error",
                 .str (httpErrorStr status
                   (atisBase ++ "/" ++ pyNormalize (pyNormalize (pyNormalize aid))))),
                ("status_code", .num status)] := by
      simp [get_airport_atis, get_airport_atis_request, atis_make_request, hs]
    have h1 : get_atis_data (fun _ => .response status body) now aid
        = .obj [("error",
                 .str (httpErrorStr status
                   (atisBase ++ "/" ++ pyNormalize (pyNormalize (pyNormalize aid))))),
                ("status_code", .num status)] := by
      simp [get_atis_data, get_airport_atis_with_info, hres, lookupJ, ensure_dict_response]
    refine ⟨h1, ?_⟩
    rw [h1]
    simp [Json.lookup, lookupJ]
  · intro fs e hnot herr
    have hs : isErrorStatus status = false := by
      simp [isErrorStatus]
      omega
    have hres : get_airport_atis (fun _ => .response status (.json (.obj fs)))
          (pyNormalize (pyNormalize aid))
        = .obj [("error", e), ("status_code", .num status)] := by
      simp [get_airport_atis, get_airport_atis_request, atis_make_request, hs, herr]
    have h1 : get_atis_data (fun _ => .response status (.json (.obj fs))) now aid
        = .obj [("error", e), ("status_code", .num status)] := by
      simp [get_atis_data, get_airport_atis_with_info, hres, lookupJ, ensure_dict_response]
    refine ⟨h1, ?_⟩
    rw [h1]
    simp [Json.lookup, lookupJ]

/-- Witness for the amended C3 theorem: a 404 with any body yields the
HTTPError message paired with 404, and a 200 whose body carries an
`error` key yields that value paired with 200. -/
theorem atis_error_paths_witness :
    (400 ≤ 404 ∧ 404 < 600) ∧
    get_atis_data (fun _ => .response 404 (.json Json.null)) "T" "KLAX"
      = .obj [("error", .str (httpErrorStr 404 (atisBase ++ "/KLAX"))),
              ("status_code", .num 404)] ∧
    get_atis_data (fun _ => .response 200 (.json (.obj [("error", .str "not found")]))) "T" "KLAX"
      = .obj [("error", .str "not found"), ("status_code", .num 200)] := by
  refine ⟨by decide, ?_, ?_⟩
  · exact ((atis_error_paths "T" "KLAX" 404).1 (.json Json.null) (by decide) (by decide)).1
  · exact ((atis_error_paths "T" "KLAX" 200).2 [("error", .str "not found")] (.str "not found")
      (by decide) rfl).1

/-- C8: with station_ids=["KJFK","KLAX"] and include_taf=False the
weather summary issues only the METAR and station-info requests and its
`taf` field is null (not an error); and for every set of inputs a
failing sub-call's error mapping is embedded as that sub-result's value
while the other sub-results are still produced. -/
theorem weather_summary_taf_disabled (env : Request → Exchange) (now : String) :
    (get_weather_summary env now ["KJFK", "KLAX"] false 2).2
      = [get_metar_request (some "KJFK,KLAX") "json" (some false) (some 2) none none,
         get_stationinfo_request (some "KJFK,KLAX") none "json"] ∧
    Json.lookup (get_weather_summary env now ["KJFK", "KLAX"] false 2).1 "taf"
      = some Json.null ∧
    (∀ sids it hb msg,
       env (get_metar_request (some (String.intercalate "," sids)) "json" (some it)
              (some hb) none none)
         = .transportError msg →
       Json.lookup (get_weather_summary env now sids it hb).1 "metar"
         = some (.obj [("error", .str msg), ("status_code", Json.null)]) ∧
       Json.lookup (get_weather_summary env now sids it hb).1 "station_info"
         = some (weather_make_request
             (get_stationinfo_request (some (String.intercalate "," sids)) none "json").url
             (env (get_stationinfo_request (some (String.intercalate "," sids)) none "json")))) := by
  refine ⟨rfl, rfl, ?_⟩
  intro sids it hb msg h
  constructor
  · simp [get_weather_summary, Json.lookup, lookupJ, h, weather_make_request]
  · simp [get_weather_summary, Json.lookup, lookupJ]

/-- Witness for C8 with a failing METAR sub-call: the error mapping is
embedded under the `metar` key. -/
theorem weather_summary_taf_disabled_witness :
    Json.lookup (get_weather_summary (fun _ => .transportError "boom") "T" ["KJFK"] false 2).1
        "metar"
      = some (.obj [("error", .str "boom"), ("status_code", Json.null)]) :=
  ((weather_summary_taf_disabled (fun _ => .transportError "boom") "T").2.2
    ["KJFK"] false 2 "boom" rfl).1

/-- C9: the single-airport ATIS convenience operation attaches the
`metadata` block (airport id, timestamp, source) exactly when the
normalized result has no `error` key; when an `error` key is present
the mapping is returned unchanged and contains no `metadata` key. -/
theorem atis_metadata_exactly_on_success (env : Request → Exchange)
    (now aid : String) (fs : List (String × Json))
    (hfs : get_airport_atis env (pyNormalize aid) = .obj fs) :
    (lookupJ "error" fs = none →
       get_airport_atis_with_info env now aid
         = .obj (dictSet fs "metadata" (atisMetadata (pyNormalize aid) now)) ∧
       Json.lookup (get_airport_atis_with_info env now aid) "metadata"
         = some (atisMetadata (pyNormalize aid) now)) ∧
    ((lookupJ "error" fs).isSome = true →
       get_airport_atis_with_info env now aid = .obj fs ∧
       Json.lookup (get_airport_atis_with_info env now aid) "metadata" = none) := by
  constructor
  · intro herr
    have h1 : get_airport_atis_with_info env now aid
        = .obj (dictSet fs "metadata" (atisMetadata (pyNormalize aid) now)) := by
      simp [get_airport_atis_with_info, hfs, herr]
    refine ⟨h1, ?_⟩
    rw [h1]
    simp [Json.lookup, lookupJ_dictSet]
  · intro herr
    have h1 : get_airport_atis_with_info env now aid = .obj fs := by
      simp [get_airport_atis_with_info, hfs, herr]
    refine ⟨h1, ?_⟩
    obtain ⟨e, c, hshape⟩ := atis_error_result_shape
      (get_airport_atis_request (pyNormalize aid)).url
      (env (get_airport_atis_request (pyNormalize aid))) fs hfs herr
    rw [h1, hshape]
    simp [Json.lookup, lookupJ]

/-- Witness for C9: on a successful lookup the metadata block appears
under `metadata`; on an error result it does not. -/
theorem atis_metadata_exactly_on_success_witness :
    Json.lookup (get_airport_atis_with_info
        (fun _ => .response 200 (.json (.obj [("datis", .str "KLAX ATIS INFO A")]))) "T" "klax")
        "metadata"
      = some (atisMetadata "KLAX" "T") ∧
    Json.lookup (get_airport_atis_with_info
        (fun _ => .transportError "down") "T" "klax") "metadata"
      = none := by
  constructor
  · exact ((atis_metadata_exactly_on_success
      (fun _ => .response 200 (.json (.obj [("datis", .str "KLAX ATIS INFO A")]))) "T" "klax"
      [("datis", .str "KLAX ATIS INFO A")] rfl).1 rfl).2
  · exact ((atis_metadata_exactly_on_success
      (fun _ => .transportError "down") "T" "klax"
      [("error", .str "down"), ("status_code", Json.null)] rfl).2 rfl).2
